import Mathlib

/-!
Verification development for the pysysmon host-metrics collector.

The definitions below are a shallow embedding of `src/app.py`:
pure shaping functions become Lean functions over explicit inputs,
the host metrics provider and the environment become explicit oracles,
Python dictionaries become insertion-ordered association lists, and
Python exceptions become `Except`.  Numeric measurement values are
modelled as rationals (no arithmetic is ever performed on them, only
copying and Python truthiness tests, i.e. comparison with zero).
-/

namespace PySysmon

/-- Insertion into a Python dict modelled as an insertion-ordered
association list: an existing key keeps its position and gets the new
value, a fresh key is appended at the end. -/
def dictInsert {α : Type} (d : List (String × α)) (k : String) (v : α) :
    List (String × α) :=
  if d.any (fun kv => kv.1 == k) then
    d.map (fun kv => if kv.1 == k then (k, v) else kv)
  else
    d ++ [(k, v)]

/-- Result of `psutil.disk_usage(path)`. -/
structure DiskUsage where
  total : ℚ
  used : ℚ
  free : ℚ
  percent : ℚ
deriving DecidableEq

/-- The loop body of `get_disk_usage`: for each configured path query the
provider and add the four fields to the result dict.  An OS-level error from
`psutil.disk_usage` is an uncaught Python exception: it aborts the whole
function, which `Except.error` models. -/
def diskLoop (disk_usage : String → Except String DiskUsage) :
    List String → List (String × ℚ) → Except String (List (String × ℚ))
  | [], result => Except.ok result
  | path :: rest, result =>
    match disk_usage path with
    | Except.error e => Except.error e
    | Except.ok usage =>
      let r1 := dictInsert result ("disk_usage_" ++ path ++ "_total") usage.total
      let r2 := dictInsert r1 ("disk_usage_" ++ path ++ "_used") usage.used
      let r3 := dictInsert r2 ("disk_usage_" ++ path ++ "_free") usage.free
      let r4 := dictInsert r3 ("disk_usage_" ++ path ++ "_percent") usage.percent
      diskLoop disk_usage rest r4

/-- `get_disk_usage` from `app.py`, with the configured path list and the
`psutil.disk_usage` provider made explicit. -/
def get_disk_usage (paths : List String)
    (disk_usage : String → Except String DiskUsage) :
    Except String (List (String × ℚ)) :=
  diskLoop disk_usage paths []

/-- `APP_DISK_USAGE_PATHS` handling: `os.getenv(...) or "/"` then
`.split(",")`. -/
def diskUsagePaths (envVal : Option String) : List String :=
  (match envVal with
   | none => "/"
   | some "" => "/"
   | some s => s).splitOn ","

/-- Record returned by `get_memory`. -/
structure MemoryRecord where
  total : ℚ
  used : ℚ
deriving DecidableEq

/-- Record returned by `get_cpu`. -/
structure CpuRecord where
  count : ℚ
  frequency : ℚ
  percent : ℚ
  load_1 : ℚ
  load_5 : ℚ
  load_15 : ℚ
deriving DecidableEq

/-- One entry of `psutil.sensors_temperatures()[chip]`; an absent label is
the empty string, as in psutil. -/
structure TempProbe where
  label : String
  current : ℚ
  high : Option ℚ
  critical : Option ℚ
deriving DecidableEq

/-- `label.replace(' ', '_')`. -/
def replaceSpaces (s : String) : String :=
  String.mk (s.data.map (fun c => if c = ' ' then '_' else c))

/-- The `measurement_label` expression in `get_temperature`:
an underscore plus the space-mangled label when the label is truthy
(non-empty), otherwise the empty string. -/
def measurementLabel (label : String) : String :=
  if label == "" then "" else "_" ++ replaceSpaces label

/-- The `measure_name` f-string in `get_temperature`. -/
def tempFieldName (sensor_name : String) (label : String) (index : Nat) :
    String :=
  sensor_name ++ measurementLabel label ++ "_" ++ toString index ++ "_current"

/-- Inner loop of `get_temperature`: `enumerate(measurements)` with dict
insertion of each probe's current value. -/
def tempChipFold (sensor_name : String) :
    List TempProbe → Nat → List (String × ℚ) → List (String × ℚ)
  | [], _, json_body => json_body
  | m :: rest, index, json_body =>
    tempChipFold sensor_name rest (index + 1)
      (dictInsert json_body (tempFieldName sensor_name m.label index) m.current)

/-- `get_temperature` from `app.py`, with the `psutil.sensors_temperatures()`
result (an insertion-ordered dict of chip name to probe list) made explicit. -/
def get_temperature (sensors : List (String × List TempProbe)) :
    List (String × ℚ) :=
  sensors.foldl (fun json_body sp => tempChipFold sp.1 sp.2 0 json_body) []

/-- The `metrics` dict built by `get_metics` (sic): per-family records, with
the temperature and disk families already flattened by their readers. -/
structure MetricSample where
  memory : MemoryRecord
  cpu : CpuRecord
  temperature : List (String × ℚ)
  disk_usage : List (String × ℚ)
deriving DecidableEq

/-- The opaque host metrics provider behind psutil. -/
structure HostProvider where
  memory : MemoryRecord
  cpu : CpuRecord
  sensors : List (String × List TempProbe)
  disk : String → Except String DiskUsage

/-- `get_metics` from `app.py`: builds the per-family metrics dict; a disk
read error propagates as an uncaught exception. -/
def get_metics (paths : List String) (h : HostProvider) :
    Except String MetricSample :=
  match get_disk_usage paths h.disk with
  | Except.error e => Except.error e
  | Except.ok d =>
    Except.ok { memory := h.memory, cpu := h.cpu,
                temperature := get_temperature h.sensors, disk_usage := d }

/-- Python `x or None` for a numeric `x`: `x` when truthy (non-zero),
`None` otherwise. -/
def orNone (x : ℚ) : Option ℚ := if x = 0 then none else some x

/-- The literal `fields` dict of the json body built in `post_metrics`. -/
def coreFields (metrics : MetricSample) : List (String × Option ℚ) :=
  [("memory_total", orNone metrics.memory.total),
   ("memory_used", orNone metrics.memory.used),
   ("cpu_count", orNone metrics.cpu.count),
   ("cpu_frequency", orNone metrics.cpu.frequency),
   ("cpu_percent", orNone metrics.cpu.percent),
   ("cpu_load_1", orNone metrics.cpu.load_1),
   ("cpu_load_5", orNone metrics.cpu.load_5),
   ("cpu_load_15", orNone metrics.cpu.load_15)]

/-- The full field set of the json body in `post_metrics`: the core fields,
then the temperature fields merged in by dict insertion, then the disk-usage
fields.  Temperature and disk values arrive present (not `None`-coerced). -/
def postFields (metrics : MetricSample) : List (String × Option ℚ) :=
  let f1 := metrics.temperature.foldl
    (fun fields nv => dictInsert fields nv.1 (some nv.2)) (coreFields metrics)
  metrics.disk_usage.foldl
    (fun fields nv => dictInsert fields nv.1 (some nv.2)) f1

/-- The single json body element written each cycle. -/
structure Point where
  measurement : String
  hostname : String
  fields : List (String × Option ℚ)
deriving DecidableEq

/-- The json body constructed in `post_metrics` before the write call. -/
def buildPoint (metrics : MetricSample) (hostname : String) : Point :=
  { measurement := "sysmon", hostname := hostname, fields := postFields metrics }

/-- Python `str()` of an optional string (`str(None)` is `"None"`). -/
def pyOptStr : Option String → String
  | none => "None"
  | some s => s

/-- Python `str()` of a bool. -/
def pyBoolStr (b : Bool) : String := if b then "True" else "False"

/-- Python truthiness of an optional string: `None` and the empty string
are falsy. -/
def pyTruthyStr : Option String → Bool
  | none => false
  | some s => !(s == "")

/-- `os.environ.get(key) or None`: coerces an empty-string value to `None`. -/
def orNoneStr : Option String → Option String
  | some "" => none
  | v => v

/-- `to_bool` from `app.py`: `str(var).lower() in ["1", "y", "yes"]`. -/
def to_bool (var : Option String) : Bool :=
  ["1", "y", "yes"].contains (pyOptStr var).toLower

/-- The `InfluxDBVars` instance attributes (the SinkConfig). -/
structure InfluxDBVars where
  hostname : Option String
  port : Option String
  username : Option String
  password : Option String
  dbname : Option String
  ssl : Bool
deriving DecidableEq

/-- `InfluxDBVars.__init__`, with the environment made explicit. -/
def InfluxDBVars.ofEnv (env : String → Option String) : InfluxDBVars :=
  { hostname := orNoneStr (env "INFLUXDB_HOST"),
    port := orNoneStr (env "INFLUXDB_PORT"),
    username := orNoneStr (env "INFLUXDB_USERNAME"),
    password := orNoneStr (env "INFLUXDB_PASSWORD"),
    dbname := orNoneStr (env "INFLUXDB_DBNAME"),
    ssl := to_bool (orNoneStr (env "INFLUXDB_SSL")) }

/-- `InfluxDBVars.__str__`: the rendered configuration, with the password
slot showing the fixed mask when the password is truthy and the raw
(`None`/empty) value otherwise. -/
def InfluxDBVars.toStr (v : InfluxDBVars) : String :=
  "<InfluxDBVars hostname=" ++ pyOptStr v.hostname ++ " port=" ++
    pyOptStr v.port ++ " username=" ++ pyOptStr v.username ++ " password=" ++
    (match v.password with
     | none => "None"
     | some s => if s == "" then s else "***") ++
    " dbname=" ++ pyOptStr v.dbname ++ " ssl=" ++ pyBoolStr v.ssl ++ ">"

/-- `InfluxDBVars.valid`: Python `self.hostname and self.port and self.dbname`
used in boolean position. -/
def InfluxDBVars.valid (v : InfluxDBVars) : Bool :=
  pyTruthyStr v.hostname && pyTruthyStr v.port && pyTruthyStr v.dbname

/-- Observable logging events. -/
inductive LogEvent
  | warn (msg : String)
  | error (msg : String)
  | debug (msg : String)
  | debugBody (body : Point)
deriving DecidableEq

/-- Observable network interactions with the sink. -/
inductive NetEvent
  | openConn (host port username password : Option String) (ssl : Bool)
  | switchDatabase (db : Option String)
  | write (body : Point)
deriving DecidableEq

/-- The `InfluxDBClient` handle, recording its construction parameters. -/
structure InfluxClient where
  host : Option String
  port : Option String
  username : Option String
  password : Option String
  ssl : Bool
deriving DecidableEq

/-- The `DBClient` instance state after `__init__`. -/
structure DBClientState where
  connect : Bool
  client : Option InfluxClient
deriving DecidableEq

/-- Everything `DBClient.__init__` produces: the state plus the log and
network events it emitted. -/
structure InitResult where
  state : DBClientState
  logs : List LogEvent
  net : List NetEvent
deriving DecidableEq

/-- `DBClient.__init__` from `app.py`.  Branches exactly as the source:
when connecting was requested but the vars are invalid it warns, errors and
sets `self.connect = True`; when the connect flag is off it logs a debug
line; finally, when `self.connect` holds, an `InfluxDBClient` is constructed
(a network resource) and `switch_database(INFLUXDB_DBNAME)` is issued. -/
def DBClient.init (db_vars : InfluxDBVars) (influxdb_dbname : Option String)
    (connect : Bool) : InitResult :=
  let c0 := connect
  let step :=
    if c0 && !db_vars.valid then
      (true,
       [LogEvent.warn db_vars.toStr,
        LogEvent.error "InfluxDB connection vars are not valid; enabling debug mode"])
    else if !c0 then
      (c0, [LogEvent.debug "not connecting to database"])
    else
      (c0, ([] : List LogEvent))
  if step.1 then
    { state :=
        { connect := step.1,
          client := some
            { host := db_vars.hostname, port := db_vars.port,
              username := db_vars.username, password := db_vars.password,
              ssl := db_vars.ssl } },
      logs := step.2,
      net := [NetEvent.openConn db_vars.hostname db_vars.port db_vars.username
                db_vars.password db_vars.ssl,
              NetEvent.switchDatabase influxdb_dbname] }
  else
    { state := { connect := step.1, client := none }, logs := step.2, net := [] }

/-- `DBClient.write_points`: always logs the body at debug level, and issues
the network write only when `self.connect` holds. -/
def DBClient.write_points (st : DBClientState) (body : Point) :
    List LogEvent × List NetEvent :=
  ([LogEvent.debugBody body],
   if st.connect then
     match st.client with
     | some _ => [NetEvent.write body]
     | none => []
   else [])

/-- The observable outcome of one `post_metrics` call. -/
structure CycleResult where
  point : Point
  logs : List LogEvent
  net : List NetEvent
deriving DecidableEq

/-- `post_metrics` from `app.py`: build the json body, then hand it to the
client's `write_points`. -/
def post_metrics (st : DBClientState) (metrics : MetricSample)
    (hostname : String) : CycleResult :=
  let body := buildPoint metrics hostname
  let lgnet := DBClient.write_points st body
  { point := body, logs := lgnet.1, net := lgnet.2 }

/-- `os.getenv(key, fallback)`: the variable's value when present (even if
empty), otherwise the fallback. -/
def getenvD (env : String → Option String) (key : String)
    (fallback : Option String) : Option String :=
  match env key with
  | some v => some v
  | none => fallback

/-- The module-level `APP_HOSTNAME` expression:
`os.getenv("APP_HOSTNAME", os.getenv("HOST", os.getenv("HOSTNAME")))`. -/
def app_hostname (env : String → Option String) : Option String :=
  getenvD env "APP_HOSTNAME" (getenvD env "HOST" (getenvD env "HOSTNAME" none))

/-- The hostname computation in `main`:
`APP_HOSTNAME or socket.gethostname()` (Python truthiness, so an empty
string falls through to the OS-reported hostname). -/
def resolveHostname (env : String → Option String) (os_hostname : String) :
    String :=
  match app_hostname env with
  | some v => if v == "" then os_hostname else v
  | none => os_hostname

/-- `connect = not args.no_db` in `main`. -/
def mainConnect (no_db : Bool) : Bool := !no_db

/-- Fuel-bounded run of the `while True` collection loop starting at cycle
`i`: each step runs one cycle body; an uncaught exception from the body
propagates and ends the run, exactly as in `main` (which has no handler).
Returns the index reached when the fuel runs out. -/
def runFrom (cycle : Nat → Except String Unit) : Nat → Nat → Except String Nat
  | i, 0 => Except.ok i
  | i, fuel + 1 =>
    match cycle i with
    | Except.ok _ => runFrom cycle (i + 1) fuel
    | Except.error e => Except.error e

/-- Run the collection loop from cycle 0 for `fuel` cycles. -/
def runCycles (cycle : Nat → Except String Unit) (fuel : Nat) :
    Except String Nat :=
  runFrom cycle 0 fuel

/-! ## Specification-side field descriptions

These definitions restate the spec's flattening rules as flat lists, to be
compared with the dict-building code above. -/

/-- The spec's disk flattening rule: for each configured path `p`, in order,
the four fields `disk_usage_p_total`, `disk_usage_p_used`,
`disk_usage_p_free`, `disk_usage_p_percent` with the path substituted
verbatim and the provider-reported values. -/
def diskSpecFields (u : String → DiskUsage) (paths : List String) :
    List (String × ℚ) :=
  paths.flatMap (fun p =>
    [("disk_usage_" ++ p ++ "_total", (u p).total),
     ("disk_usage_" ++ p ++ "_used", (u p).used),
     ("disk_usage_" ++ p ++ "_free", (u p).free),
     ("disk_usage_" ++ p ++ "_percent", (u p).percent)])

/-- The spec's temperature flattening rule for one chip, starting at probe
index `index`: one field per probe, named per §4.2, carrying the probe's
current reading only. -/
def probeFieldsFrom (sensor_name : String) :
    Nat → List TempProbe → List (String × ℚ)
  | _, [] => []
  | index, p :: rest =>
    (tempFieldName sensor_name p.label index, p.current) ::
      probeFieldsFrom sensor_name (index + 1) rest

/-- The spec's temperature flattening rule over all chips in provider
order. -/
def tempSpecFields (sensors : List (String × List TempProbe)) :
    List (String × ℚ) :=
  sensors.flatMap (fun sp => probeFieldsFrom sp.1 0 sp.2)

/-! ## Field-name analysis helpers -/

/-- The four disk stat suffixed names, through one uniform builder. -/
def diskFieldName (p stat : String) : String :=
  "disk_usage_" ++ p ++ ("_" ++ stat)

/-- The four disk stats in emission order. -/
def diskStats : List String := ["total", "used", "free", "percent"]

/-- The field names the eight core metrics synthesize. -/
def coreFieldNames : List String :=
  ["memory_total", "memory_used", "cpu_count", "cpu_frequency",
   "cpu_percent", "cpu_load_1", "cpu_load_5", "cpu_load_15"]

/-- All field names the disk family synthesizes for a path list. -/
def diskFieldNames (paths : List String) : List String :=
  paths.flatMap (fun p => diskStats.map (fun s => diskFieldName p s))

/-- All field names the temperature family synthesizes. -/
def tempFieldNames (sensors : List (String × List TempProbe)) : List String :=
  (tempSpecFields sensors).map Prod.fst

/-- Every field name of one shaped sample, in merge order: core fields, then
temperature, then disk usage. -/
def allFieldNames (paths : List String)
    (sensors : List (String × List TempProbe)) : List String :=
  coreFieldNames ++ tempFieldNames sensors ++ diskFieldNames paths

/-- The last four characters of a string, in reverse order; enough to tell
the stat families apart. -/
def strTail4 (s : String) : List Char := s.data.reverse.take 4

/-! ## Concrete inputs used by counterexamples and witnesses -/

/-- A metrics sample whose CPU one-minute load average is present with the
zero value, all other readings non-zero. -/
def c1Sample : MetricSample :=
  { memory := { total := 16000000, used := 8000000 },
    cpu := { count := 8, frequency := 2400, percent := 12,
             load_1 := 0, load_5 := 1, load_15 := 2 },
    temperature := [], disk_usage := [] }

/-- A sink configuration with host and port present but the database name
missing, hence invalid. -/
def c2Vars : InfluxDBVars :=
  { hostname := some "influx.local", port := some "8086", username := none,
    password := some "hunter2", dbname := none, ssl := false }

/-- A cycle function whose first cycle raises and whose later cycles all
succeed. -/
def c3FaultAtZero : Nat → Except String Unit :=
  fun i => if i = 0 then Except.error "disk read failed" else Except.ok ()

/-- A cycle function whose first two cycles succeed and whose third cycle
raises. -/
def c3FaultAtTwo : Nat → Except String Unit :=
  fun i => if i = 2 then Except.error "late fault" else Except.ok ()

/-- A cycle function that never raises. -/
def c3AllOk : Nat → Except String Unit :=
  fun _ => Except.ok ()

/-- A disk provider for which the root path succeeds and every other path
raises an OS-level error. -/
def c4Disk : String → Except String DiskUsage :=
  fun p => if p = "/" then Except.ok ⟨100, 60, 40, 60⟩
           else Except.error "path not mounted"

/-- A disk provider for the C4 witness: only `/bad` raises. -/
def c4wDisk : String → Except String DiskUsage :=
  fun p => if p = "/bad" then Except.error "oserr" else Except.ok ⟨50, 20, 30, 40⟩

/-- A total disk provider used by the C5 witness. -/
def c5wUsage : String → DiskUsage :=
  fun p => if p = "/" then ⟨100, 60, 40, 60⟩ else ⟨9, 5, 4, 55⟩

/-- The C5 witness provider, which never fails. -/
def c5wDisk : String → Except String DiskUsage :=
  fun p => Except.ok (c5wUsage p)

/-- Two distinct temperature probes (on distinct chips) whose synthesized
field names coincide: chip `a` with a probe labeled `b`, and chip `a_b`
with an unlabeled probe, both at index 0. -/
def c6Sensors : List (String × List TempProbe) :=
  [("a", [{ label := "b", current := 5, high := none, critical := none }]),
   ("a_b", [{ label := "", current := 7, high := none, critical := none }])]

/-- The spec's own coretemp example: one labeled and one unlabeled probe. -/
def coretempSensors : List (String × List TempProbe) :=
  [("coretemp",
    [{ label := "Core 0", current := 45, high := some 80, critical := some 100 },
     { label := "", current := 47, high := none, critical := none }])]

/-- A temperature record used by the C6 witness. -/
def c6wSensors : List (String × List TempProbe) :=
  [("acpitz", [{ label := "", current := 30, high := none, critical := none }]),
   ("nvme", [{ label := "Composite", current := 35, high := some 82, critical := some 85 }])]

/-- An environment in which `APP_HOSTNAME` is set to the empty string and
`HOST` is set to a non-empty value. -/
def c7Env : String → Option String :=
  fun k => if k = "APP_HOSTNAME" then some "" else
           if k = "HOST" then some "hostA" else none

/-- An environment in which only `HOST` is set. -/
def c7wEnv : String → Option String :=
  fun k => if k = "HOST" then some "hostB" else none

/-- A sink configuration with password `secretA`. -/
def c9VarsA : InfluxDBVars :=
  { hostname := some "db", port := some "8086", username := some "u",
    password := some "secretA", dbname := some "metrics", ssl := true }

/-- The same sink configuration with the distinct password `secretB2`. -/
def c9VarsB : InfluxDBVars :=
  { hostname := some "db", port := some "8086", username := some "u",
    password := some "secretB2", dbname := some "metrics", ssl := true }

/-- The same sink configuration with no password set. -/
def c9VarsNone : InfluxDBVars :=
  { hostname := some "db", port := some "8086", username := some "u",
    password := none, dbname := some "metrics", ssl := true }

/-- Two distinct temperature probes whose synthesized names coincide, built
from realistic chip names: chip `coretemp` with a probe labeled `Core 0`
and chip `coretemp_Core_0` with an unlabeled probe. -/
def c10Sensors : List (String × List TempProbe) :=
  [("coretemp", [{ label := "Core 0", current := 45, high := none, critical := none }]),
   ("coretemp_Core_0", [{ label := "", current := 47, high := none, critical := none }])]

/-! ## Helper lemmas: dict insertion -/

/-- Inserting a key that is absent from the dict appends the pair. -/
theorem dictInsert_of_fresh {α : Type} (d : List (String × α)) (k : String) (v : α)
    (h : ∀ kv ∈ d, kv.1 ≠ k) : dictInsert d k v = d ++ [(k, v)] := by
  have hany : d.any (fun kv => kv.1 == k) = false := by
    rw [List.any_eq_false]
    intro kv hkv
    simp only [beq_iff_eq]
    exact h kv hkv
  simp [dictInsert, hany]

/-- Folding dict insertions of pairwise-fresh keys over a dict that contains
none of them appends all the pairs in order. -/
theorem foldl_dictInsert_fresh {α β : Type} (g : String × β → α) :
    ∀ (pairs : List (String × β)) (acc : List (String × α)),
      (pairs.map Prod.fst).Nodup →
      (∀ k ∈ pairs.map Prod.fst, ∀ kv ∈ acc, kv.1 ≠ k) →
      List.foldl (fun a kv => dictInsert a kv.1 (g kv)) acc pairs
        = acc ++ pairs.map (fun kv => (kv.1, g kv))
  | [], acc, _, _ => by simp
  | kv :: rest, acc, hnodup, hfresh => by
    simp only [List.foldl_cons]
    rw [dictInsert_of_fresh acc kv.1 (g kv)
          (fun kv2 h2 => hfresh kv.1 (by simp) kv2 h2)]
    rw [List.map_cons, List.nodup_cons] at hnodup
    rw [foldl_dictInsert_fresh g rest (acc ++ [(kv.1, g kv)]) hnodup.2 ?fresh]
    · simp
    case fresh =>
      intro k hk kv2 hkv2
      rcases List.mem_append.mp hkv2 with h2 | h2
      · exact hfresh k (by simp [hk]) kv2 h2
      · have : kv2 = (kv.1, g kv) := by simpa using h2
        subst this
        intro hcontra
        exact hnodup.1 (hcontra ▸ hk)

/-- Folding dict insertions with pairwise-distinct keys into the empty dict
reproduces the pair list. -/
theorem foldl_dictInsert_nodup {β : Type} (pairs : List (String × β))
    (h : (pairs.map Prod.fst).Nodup) :
    List.foldl (fun a kv => dictInsert a kv.1 kv.2) [] pairs = pairs := by
  have := foldl_dictInsert_fresh Prod.snd pairs [] h (by simp)
  simpa using this

/-! ## Helper lemmas: field-name analysis -/

/-- The literal total field name factors through the uniform builder. -/
theorem diskName_total (p : String) :
    "disk_usage_" ++ p ++ "_total" = diskFieldName p "total" := rfl

/-- The literal used field name factors through the uniform builder. -/
theorem diskName_used (p : String) :
    "disk_usage_" ++ p ++ "_used" = diskFieldName p "used" := rfl

/-- The literal free field name factors through the uniform builder. -/
theorem diskName_free (p : String) :
    "disk_usage_" ++ p ++ "_free" = diskFieldName p "free" := rfl

/-- The literal percent field name factors through the uniform builder. -/
theorem diskName_percent (p : String) :
    "disk_usage_" ++ p ++ "_percent" = diskFieldName p "percent" := rfl

/-- Appending a string of length at least four fixes the reversed tail. -/
theorem strTail4_append (a b : String) (h : 4 ≤ b.length) :
    strTail4 (a ++ b) = strTail4 b := by
  unfold strTail4
  rw [String.data_append, List.reverse_append]
  exact List.take_append_of_le_length (by rw [List.length_reverse]; exact h)

/-- The reversed tail of a disk field name is that of its stat suffix. -/
theorem strTail4_diskFieldName (p stat : String) (h : 4 ≤ stat.length) :
    strTail4 (diskFieldName p stat) = strTail4 stat := by
  unfold diskFieldName
  rw [strTail4_append ("disk_usage_" ++ p) ("_" ++ stat)
        (by rw [String.length_append]; have h1 : "_".length = 1 := rfl; omega),
      strTail4_append "_" stat h]

/-- Every synthesized temperature field name ends in `rent` (reversed:
the tail of `_current`). -/
theorem strTail4_tempFieldName (s lbl : String) (i : Nat) :
    strTail4 (tempFieldName s lbl i) = ['t', 'n', 'e', 'r'] := by
  unfold tempFieldName
  rw [strTail4_append _ "_current" (by decide)]
  decide

/-- Length of a synthesized disk field name. -/
theorem diskFieldName_length (p stat : String) :
    (diskFieldName p stat).length = 12 + p.length + stat.length := by
  unfold diskFieldName
  rw [String.length_append, String.length_append, String.length_append]
  have h1 : "disk_usage_".length = 11 := rfl
  have h2 : "_".length = 1 := rfl
  omega

/-- Disk field names determine their path and stat. -/
theorem diskFieldName_inj {p q s t : String} (hs : s ∈ diskStats) (ht : t ∈ diskStats)
    (h : diskFieldName p s = diskFieldName q t) : p = q ∧ s = t := by
  have h4 : ∀ r ∈ diskStats, 4 ≤ r.length := by decide
  have htails := congrArg strTail4 h
  rw [strTail4_diskFieldName p s (h4 s hs), strTail4_diskFieldName q t (h4 t ht)] at htails
  have hst : s = t := by
    simp only [diskStats, List.mem_cons, List.mem_singleton, List.not_mem_nil, or_false] at hs ht
    rcases hs with rfl | rfl | rfl | rfl <;> rcases ht with rfl | rfl | rfl | rfl <;>
      first
      | rfl
      | exact absurd htails (by decide)
  subst hst
  refine ⟨?_, rfl⟩
  have hd := congrArg String.data h
  simp only [diskFieldName, String.data_append, List.append_assoc] at hd
  have hpq := List.append_cancel_right (List.append_cancel_left hd)
  exact String.ext hpq

/-- Membership in the synthesized disk name list. -/
theorem mem_diskFieldNames {x : String} {paths : List String} :
    x ∈ diskFieldNames paths ↔ ∃ p ∈ paths, ∃ s ∈ diskStats, x = diskFieldName p s := by
  simp [diskFieldNames, List.mem_flatMap, List.mem_map, eq_comm]

/-- Distinct configured paths synthesize pairwise-distinct disk names. -/
theorem diskFieldNames_nodup : ∀ (paths : List String), paths.Nodup → (diskFieldNames paths).Nodup
  | [], _ => by simp [diskFieldNames]
  | p :: rest, h => by
    rw [List.nodup_cons] at h
    have hrest := diskFieldNames_nodup rest h.2
    show (diskFieldNames (p :: rest)).Nodup
    unfold diskFieldNames
    rw [List.flatMap_cons, List.nodup_append]
    refine ⟨?_, hrest, ?_⟩
    · apply List.Nodup.map_on
      · intro x hx y hy hxy
        exact (diskFieldName_inj hx hy hxy).2
      · decide
    · intro x hx hx2
      obtain ⟨s, hs, rfl⟩ := List.mem_map.mp hx
      obtain ⟨q, hq, t, htq, hx2eq⟩ := mem_diskFieldNames.mp hx2
      have hinj := diskFieldName_inj hs htq hx2eq
      exact h.1 (hinj.1 ▸ hq)

/-- The keys of the spec-side disk field list are the synthesized names. -/
theorem map_fst_diskSpecFields (u : String → DiskUsage) :
    ∀ paths : List String, (diskSpecFields u paths).map Prod.fst = diskFieldNames paths
  | [] => rfl
  | p :: rest => by
    have ih := map_fst_diskSpecFields u rest
    simp only [diskSpecFields, diskFieldNames, List.flatMap_cons, List.map_append] at ih ⊢
    rw [ih]
    rfl

/-- The spec-side disk field list has four entries per configured path. -/
theorem diskSpecFields_length (u : String → DiskUsage) :
    ∀ paths : List String, (diskSpecFields u paths).length = 4 * paths.length
  | [] => rfl
  | p :: rest => by
    have ih := diskSpecFields_length u rest
    simp only [diskSpecFields] at ih ⊢
    rw [List.flatMap_cons, List.length_append, ih]
    simp [Nat.mul_succ]
    omega

/-- When the provider succeeds on every configured path, the disk loop is
the dict-insertion fold of the spec-side field list. -/
theorem diskLoop_eq_foldl (disk : String → Except String DiskUsage) (u : String → DiskUsage) :
    ∀ (paths : List String) (acc : List (String × ℚ)),
      (∀ p ∈ paths, disk p = Except.ok (u p)) →
      diskLoop disk paths acc
        = Except.ok (List.foldl (fun a kv => dictInsert a kv.1 kv.2) acc (diskSpecFields u paths))
  | [], acc, _ => by simp [diskLoop, diskSpecFields]
  | p :: rest, acc, hok => by
    have hp := hok p (by simp)
    have hstep : diskLoop disk (p :: rest) acc
        = diskLoop disk rest
            (dictInsert (dictInsert (dictInsert (dictInsert acc
              ("disk_usage_" ++ p ++ "_total") (u p).total)
              ("disk_usage_" ++ p ++ "_used") (u p).used)
              ("disk_usage_" ++ p ++ "_free") (u p).free)
              ("disk_usage_" ++ p ++ "_percent") (u p).percent) := by
      conv_lhs => unfold diskLoop
      rw [hp]
    rw [hstep, diskLoop_eq_foldl disk u rest _ (fun q hq => hok q (by simp [hq]))]
    congr 1

/-! ## Helper lemmas: temperature flattening -/

/-- The per-chip loop is the dict-insertion fold of that chip's spec-side
field list. -/
theorem tempChipFold_eq_foldl (s : String) :
    ∀ (ps : List TempProbe) (i : Nat) (acc : List (String × ℚ)),
      tempChipFold s ps i acc
        = List.foldl (fun a kv => dictInsert a kv.1 kv.2) acc (probeFieldsFrom s i ps)
  | [], _, _ => rfl
  | m :: rest, i, acc => by
    simp only [tempChipFold, probeFieldsFrom, List.foldl_cons]
    exact tempChipFold_eq_foldl s rest (i + 1) _

/-- The chip-by-chip fold is the dict-insertion fold of the full spec-side
temperature field list. -/
theorem foldl_chips_eq_foldl :
    ∀ (sensors : List (String × List TempProbe)) (acc : List (String × ℚ)),
      sensors.foldl (fun json_body sp => tempChipFold sp.1 sp.2 0 json_body) acc
        = List.foldl (fun a kv => dictInsert a kv.1 kv.2) acc (tempSpecFields sensors)
  | [], _ => rfl
  | sp :: rest, acc => by
    simp only [List.foldl_cons, tempSpecFields, List.flatMap_cons]
    rw [List.foldl_append, tempChipFold_eq_foldl]
    exact foldl_chips_eq_foldl rest _

/-- `get_temperature` is the dict-insertion fold of the spec-side list. -/
theorem get_temperature_eq_foldl (sensors : List (String × List TempProbe)) :
    get_temperature sensors
      = List.foldl (fun a kv => dictInsert a kv.1 kv.2) [] (tempSpecFields sensors) :=
  foldl_chips_eq_foldl sensors []

/-- Every spec-side temperature field comes from some probe at some index. -/
theorem mem_probeFieldsFrom {s : String} :
    ∀ {i : Nat} {ps : List TempProbe} {kv : String × ℚ},
      kv ∈ probeFieldsFrom s i ps →
      ∃ j p, p ∈ ps ∧ kv = (tempFieldName s p.label j, p.current)
  | _, [], kv, h => absurd h (by simp [probeFieldsFrom])
  | i, m :: rest, kv, h => by
    rw [probeFieldsFrom] at h
    rcases List.mem_cons.mp h with h1 | h2
    · exact ⟨i, m, by simp, h1⟩
    · obtain ⟨j, p, hp, he⟩ := mem_probeFieldsFrom h2
      exact ⟨j, p, by simp [hp], he⟩

/-- Every synthesized temperature name ends in the `_current` tail. -/
theorem tempFieldNames_tail4 (sensors : List (String × List TempProbe)) :
    ∀ x ∈ tempFieldNames sensors, strTail4 x = ['t', 'n', 'e', 'r'] := by
  intro x hx
  simp only [tempFieldNames, List.mem_map] at hx
  obtain ⟨kv, hkv, rfl⟩ := hx
  simp only [tempSpecFields, List.mem_flatMap] at hkv
  obtain ⟨sp, hsp, hin⟩ := hkv
  obtain ⟨j, p, hp, rfl⟩ := mem_probeFieldsFrom hin
  exact strTail4_tempFieldName sp.1 p.label j

/-- The eight core names are distinct, short, and none ends like
`_current`. -/
theorem coreFieldNames_facts :
    coreFieldNames.Nodup
    ∧ (∀ n ∈ coreFieldNames, n.length ≤ 13)
    ∧ (∀ n ∈ coreFieldNames, strTail4 n ≠ ['t', 'n', 'e', 'r']) := by decide

/-- The keys of the core field dict are the core names, for any sample. -/
theorem map_fst_coreFields (m : MetricSample) :
    (coreFields m).map Prod.fst = coreFieldNames := rfl

/-- Every synthesized disk name is at least 16 characters long and does not
end like `_current`. -/
theorem diskFieldNames_props {paths : List String} :
    ∀ x ∈ diskFieldNames paths, 16 ≤ x.length ∧ strTail4 x ≠ ['t', 'n', 'e', 'r'] := by
  intro x hx
  obtain ⟨p, hp, s, hs, rfl⟩ := mem_diskFieldNames.mp hx
  simp only [diskStats, List.mem_cons, List.mem_singleton, List.not_mem_nil, or_false] at hs
  rcases hs with rfl | rfl | rfl | rfl <;>
    refine ⟨by
      rw [diskFieldName_length]
      have h4 : 4 ≤ "total".length ∧ 4 ≤ "used".length ∧ 4 ≤ "free".length
          ∧ 4 ≤ "percent".length := by decide
      obtain ⟨ha, hb, hc, hd⟩ := h4
      omega, ?_⟩ <;>
    · rw [strTail4_diskFieldName _ _ (by decide)]
      decide


/-! ## Remaining helper lemmas -/

/-- Every member of a dict after insertion is an old entry or the new
pair. -/
theorem mem_dictInsert {α : Type} {d : List (String × α)} {k : String} {v : α}
    {kv : String × α} (h : kv ∈ dictInsert d k v) : kv ∈ d ∨ kv = (k, v) := by
  by_cases hc : d.any (fun kv => kv.1 == k) = true
  · simp only [dictInsert, hc, if_true] at h
    obtain ⟨kv0, hkv0, he⟩ := List.mem_map.mp h
    by_cases h0 : (kv0.1 == k) = true
    · rw [if_pos h0] at he
      right; exact he.symm
    · rw [if_neg h0] at he
      left; exact he ▸ hkv0
  · simp only [dictInsert, hc, if_false] at h
    rcases List.mem_append.mp h with h1 | h1
    · left; exact h1
    · right; simpa using h1

/-- Every member of a dict built by folding insertions comes from the
starting dict or from the inserted pair list. -/
theorem mem_foldl_dictInsert {α : Type} :
    ∀ (pairs : List (String × α)) (acc : List (String × α)) (kv : String × α),
      kv ∈ List.foldl (fun a p => dictInsert a p.1 p.2) acc pairs →
      kv ∈ acc ∨ kv ∈ pairs
  | [], _, _, h => Or.inl h
  | p :: rest, acc, kv, h => by
    rcases mem_foldl_dictInsert rest (dictInsert acc p.1 p.2) kv h with h1 | h1
    · rcases mem_dictInsert h1 with h2 | h2
      · exact Or.inl h2
      · exact Or.inr (by simp [h2])
    · exact Or.inr (by simp [h1])

/-- A loop run whose cycles all succeed advances the cycle counter by the
whole fuel. -/
theorem runFrom_all_ok (cycle : Nat → Except String Unit)
    (h : ∀ i, cycle i = Except.ok ()) :
    ∀ (n i : Nat), runFrom cycle i n = Except.ok (i + n)
  | 0, i => by simp [runFrom]
  | n + 1, i => by
    have harith : i + 1 + n = i + (n + 1) := by omega
    conv_lhs => unfold runFrom
    rw [h i, runFrom_all_ok cycle h n (i + 1), harith]

/-- A loop run whose first k cycles succeed and whose cycle k faults ends
with that fault, whatever the remaining fuel. -/
theorem runFrom_error (cycle : Nat → Except String Unit) (e : String) :
    ∀ (k n i : Nat), k < n →
      (∀ j, j < k → cycle (i + j) = Except.ok ()) →
      cycle (i + k) = Except.error e →
      runFrom cycle i n = Except.error e
  | 0, n, i, hkn, _, hk => by
    match n, hkn with
    | m + 1, _ =>
      conv_lhs => unfold runFrom
      rw [show cycle i = Except.error e by simpa using hk]
  | k + 1, n, i, hkn, hpre, hk => by
    match n, hkn with
    | m + 1, hkn =>
      have h0 : cycle i = Except.ok () := by simpa using hpre 0 (by omega)
      conv_lhs => unfold runFrom
      rw [h0]
      refine runFrom_error cycle e k m (i + 1) (by omega) ?_ ?_
      · intro j hj
        have harith : i + 1 + j = i + (j + 1) := by omega
        rw [harith]
        exact hpre (j + 1) (by omega)
      · have harith : i + 1 + k = i + (k + 1) := by omega
        rw [harith]
        exact hk

/-- A disk loop that encounters a failing path aborts with that path's
error, whatever was read before. -/
theorem diskLoop_error (disk : String → Except String DiskUsage) (p : String)
    (post : List String) (e : String) (u : String → DiskUsage)
    (hp : disk p = Except.error e) :
    ∀ (pre : List String) (acc : List (String × ℚ)),
      (∀ q ∈ pre, disk q = Except.ok (u q)) →
      diskLoop disk (pre ++ p :: post) acc = Except.error e
  | [], acc, _ => by
    show diskLoop disk (p :: post) acc = Except.error e
    conv_lhs => unfold diskLoop
    rw [hp]
  | q :: pre2, acc, hok => by
    have hq := hok q (by simp)
    show diskLoop disk (q :: (pre2 ++ p :: post)) acc = Except.error e
    have hstep : diskLoop disk (q :: (pre2 ++ p :: post)) acc
        = diskLoop disk (pre2 ++ p :: post)
            (dictInsert (dictInsert (dictInsert (dictInsert acc
              ("disk_usage_" ++ q ++ "_total") (u q).total)
              ("disk_usage_" ++ q ++ "_used") (u q).used)
              ("disk_usage_" ++ q ++ "_free") (u q).free)
              ("disk_usage_" ++ q ++ "_percent") (u q).percent) := by
      conv_lhs => unfold diskLoop
      rw [hq]
    rw [hstep]
    exact diskLoop_error disk p post e u hp pre2 _ (fun r hr => hok r (by simp [hr]))

/-- Core, temperature and disk field names never collide across families,
and are pairwise distinct within each family given distinct configured
paths and distinct synthesized temperature names. -/
theorem allFieldNames_nodup (paths : List String) (sensors : List (String × List TempProbe))
    (hp : paths.Nodup) (ht : (tempFieldNames sensors).Nodup) :
    (allFieldNames paths sensors).Nodup := by
  have hcore := coreFieldNames_facts
  have hdiskprops := @diskFieldNames_props paths
  have htemp4 := tempFieldNames_tail4 sensors
  unfold allFieldNames
  rw [List.nodup_append, List.nodup_append]
  refine ⟨⟨hcore.1, ht, ?_⟩, diskFieldNames_nodup paths hp, ?_⟩
  · intro x hxc hxt
    exact (hcore.2.2 x hxc) (htemp4 x hxt)
  · intro x hx2 hxd
    rcases List.mem_append.mp hx2 with h | h
    · have hlen := (hdiskprops x hxd).1
      have hshort := hcore.2.1 x h
      omega
    · exact (hdiskprops x hxd).2 (htemp4 x h)

/-- Merging the temperature and disk fields into the core field set only
appends: no existing field is overwritten. -/
theorem postFields_append (paths : List String) (sensors : List (String × List TempProbe))
    (hp : paths.Nodup) (ht : (tempFieldNames sensors).Nodup)
    (mem : MemoryRecord) (cpu : CpuRecord) (u : String → DiskUsage) :
    postFields { memory := mem, cpu := cpu, temperature := tempSpecFields sensors,
                 disk_usage := diskSpecFields u paths }
      = coreFields { memory := mem, cpu := cpu, temperature := tempSpecFields sensors,
                     disk_usage := diskSpecFields u paths }
        ++ (tempSpecFields sensors).map (fun kv => (kv.1, some kv.2))
        ++ (diskSpecFields u paths).map (fun kv => (kv.1, some kv.2)) := by
  set m : MetricSample :=
    { memory := mem, cpu := cpu, temperature := tempSpecFields sensors,
      disk_usage := diskSpecFields u paths } with hm
  have hcore := coreFieldNames_facts
  have hdiskprops := @diskFieldNames_props paths
  have htemp4 := tempFieldNames_tail4 sensors
  have hcoreKey : ∀ kv ∈ coreFields m, kv.1 ∈ coreFieldNames := by
    intro kv hkv
    have := List.mem_map_of_mem Prod.fst hkv
    rwa [map_fst_coreFields] at this
  have h1 : (tempSpecFields sensors).foldl
      (fun fields nv => dictInsert fields nv.1 (some nv.2)) (coreFields m)
      = coreFields m ++ (tempSpecFields sensors).map (fun kv => (kv.1, some kv.2)) := by
    refine foldl_dictInsert_fresh (fun kv => some kv.2) (tempSpecFields sensors)
      (coreFields m) ht ?_
    intro k hk kv hkv
    intro hcontra
    have hkc := hcoreKey kv hkv
    exact (hcore.2.2 kv.1 hkc) (hcontra ▸ htemp4 k hk)
  have h2 : (diskSpecFields u paths).foldl
      (fun fields nv => dictInsert fields nv.1 (some nv.2))
      (coreFields m ++ (tempSpecFields sensors).map (fun kv => (kv.1, some kv.2)))
      = coreFields m ++ (tempSpecFields sensors).map (fun kv => (kv.1, some kv.2))
        ++ (diskSpecFields u paths).map (fun kv => (kv.1, some kv.2)) := by
    have hnd : ((diskSpecFields u paths).map Prod.fst).Nodup := by
      rw [map_fst_diskSpecFields]
      exact diskFieldNames_nodup paths hp
    have := foldl_dictInsert_fresh (fun kv => some kv.2) (diskSpecFields u paths)
      (coreFields m ++ (tempSpecFields sensors).map (fun kv => (kv.1, some kv.2))) hnd ?_
    · rw [this, List.append_assoc]
    · intro k hk kv hkv
      rw [map_fst_diskSpecFields] at hk
      intro hcontra
      rcases List.mem_append.mp hkv with hc | htm
      · have hkc := hcoreKey kv hc
        have hlen := (hdiskprops k hk).1
        have hshort := hcore.2.1 kv.1 hkc
        rw [hcontra] at hshort
        omega
      · obtain ⟨kv0, hkv0, hfst⟩ := List.mem_map.mp htm
        have : kv.1 ∈ tempFieldNames sensors := by
          rw [← hfst]
          simp only [tempFieldNames]
          exact List.mem_map_of_mem Prod.fst hkv0
        exact (hdiskprops k hk).2 (hcontra ▸ htemp4 kv.1 this)
  calc postFields m
      = (diskSpecFields u paths).foldl
          (fun fields nv => dictInsert fields nv.1 (some nv.2))
          ((tempSpecFields sensors).foldl
            (fun fields nv => dictInsert fields nv.1 (some nv.2)) (coreFields m)) := rfl
    _ = coreFields m ++ (tempSpecFields sensors).map (fun kv => (kv.1, some kv.2))
          ++ (diskSpecFields u paths).map (fun kv => (kv.1, some kv.2)) := by
        rw [h1, h2]

/-! ## Claim theorems -/

/-- C1: the claim says a present-but-zero numeric core metric is emitted as
`0.0` and never replaced by null.  The code disagrees: `post_metrics` runs
every core value through `x or None`, so the sample `c1Sample`, whose
one-minute load is present with value `0`, is posted with the field
`cpu_load_1` set to null, not to `0.0`.  This is the truthiness bug the
spec itself mandates against. -/
theorem C1_present_zero_is_posted_as_null :
    List.lookup "cpu_load_1" (postFields c1Sample) = some none
    ∧ List.lookup "cpu_load_1" (postFields c1Sample) ≠ some (some 0) := by
  constructor
  · rfl
  · decide

/-- C2: the claim says an invalid sink configuration (database missing,
skip-sink flag unset) resolves write-enabled to `false` and acquires no
sink connection.  The code disagrees: `DBClient.__init__` warns once with
the redacted configuration, then sets `self.connect = True` (despite its
own "enabling debug mode" message) and proceeds to construct an
`InfluxDBClient` and switch databases — a live connection is acquired and
write-enabled stays `true`. -/
theorem C2_invalid_sink_config_still_connects :
    InfluxDBVars.valid c2Vars = false
    ∧ (DBClient.init c2Vars none true).state.connect = true
    ∧ (DBClient.init c2Vars none true).net
        = [NetEvent.openConn (some "influx.local") (some "8086") none (some "hunter2") false,
           NetEvent.switchDatabase none]
    ∧ (DBClient.init c2Vars none true).logs
        = [LogEvent.warn (InfluxDBVars.toStr c2Vars),
           LogEvent.error "InfluxDB connection vars are not valid; enabling debug mode"] := by
  refine ⟨rfl, rfl, rfl, rfl⟩

/-- C3 counterexample: with a cycle function that faults on the first cycle
and would succeed on all later cycles, the two-cycle run ends with the
fault instead of completing both cycles — the loop does not proceed to the
next cycle after a fault, contrary to the claim. -/
theorem C3_fault_terminates_loop_cex :
    runCycles c3FaultAtZero 2 = Except.error "disk read failed"
    ∧ runCycles c3FaultAtZero 2 ≠ Except.ok 2 := by
  constructor
  · rfl
  · intro hcontra
    rw [show runCycles c3FaultAtZero 2 = Except.error "disk read failed" from rfl] at hcontra
    exact Except.noConfusion hcontra

/-- C3 amended: the collection loop in `main` has no exception handler, so
a fault raised during any single cycle — the first faulting one, after the
earlier cycles succeeded — propagates and terminates the loop there; only
when every cycle succeeds does the loop keep running and complete all its
cycles. -/
theorem C3_fault_propagates (cycle : Nat → Except String Unit) (fuel : Nat) :
    (∀ (k : Nat) (e : String), k < fuel →
        (∀ j, j < k → cycle j = Except.ok ()) →
        cycle k = Except.error e →
        runCycles cycle fuel = Except.error e)
    ∧ ((∀ i, cycle i = Except.ok ()) → runCycles cycle fuel = Except.ok fuel) := by
  constructor
  · intro k e hk hpre hfault
    show runFrom cycle 0 fuel = Except.error e
    refine runFrom_error cycle e k fuel 0 hk ?_ ?_
    · intro j hj
      simpa using hpre j hj
    · simpa using hfault
  · intro hok
    show runFrom cycle 0 fuel = Except.ok fuel
    rw [runFrom_all_ok cycle hok fuel 0]
    congr 1
    omega

/-- C3 witness: the amended theorem evaluated at a cycle function that
succeeds twice and faults on its third cycle, and at one that never
faults. -/
theorem C3_fault_propagates_witness :
    runCycles c3FaultAtTwo 5 = Except.error "late fault"
    ∧ runCycles c3AllOk 3 = Except.ok 3 :=
  ⟨(C3_fault_propagates c3FaultAtTwo 5).1 2 "late fault" (by omega)
      (fun j hj => by
        have hj2 : j = 0 ∨ j = 1 := by omega
        rcases hj2 with rfl | rfl <;> rfl)
      rfl,
   (C3_fault_propagates c3AllOk 3).2 (fun _ => rfl)⟩

/-- C4 counterexample: with two configured paths of which the second raises
an OS-level error, `get_disk_usage` raises instead of returning the four
fields of the healthy first path — the failing path aborts the whole read,
contrary to the claim that partial results are kept. -/
theorem C4_one_bad_path_aborts_all_cex :
    get_disk_usage ["/", "/mnt/gone"] c4Disk = Except.error "path not mounted" := rfl

/-- C4 amended: `get_disk_usage` has no per-path error isolation: if any
configured path's usage query raises, the whole reader raises that error
and no fields — not even those of the paths read before the failure — are
returned. -/
theorem C4_path_error_aborts_read (disk : String → Except String DiskUsage)
    (u : String → DiskUsage) (pre post : List String) (p : String) (e : String)
    (hpre : ∀ q ∈ pre, disk q = Except.ok (u q))
    (hp : disk p = Except.error e) :
    get_disk_usage (pre ++ p :: post) disk = Except.error e :=
  diskLoop_error disk p post e u hp pre [] hpre

/-- C4 witness: the amended theorem evaluated at a concrete path list whose
middle path fails. -/
theorem C4_path_error_aborts_read_witness :
    get_disk_usage (["/"] ++ "/bad" :: ["/data"]) c4wDisk = Except.error "oserr" :=
  C4_path_error_aborts_read c4wDisk (fun _ => ⟨50, 20, 30, 40⟩) ["/"] ["/data"]
    "/bad" "oserr" (by intro q hq; simp at hq; subst hq; rfl) rfl

/-- C5: for distinct configured paths (the spec models the configuration as
a set of paths) on which the provider succeeds, the disk reader returns
exactly the spec-side field list: four fields per path, named
`disk_usage_(path)_total/used/free/percent` with the path substituted
verbatim and the provider-reported values, 4 times N fields in total. -/
theorem C5_disk_fields_shape (paths : List String)
    (disk : String → Except String DiskUsage) (u : String → DiskUsage)
    (hnodup : paths.Nodup)
    (hok : ∀ p ∈ paths, disk p = Except.ok (u p)) :
    get_disk_usage paths disk = Except.ok (diskSpecFields u paths)
    ∧ (diskSpecFields u paths).length = 4 * paths.length := by
  refine ⟨?_, diskSpecFields_length u paths⟩
  unfold get_disk_usage
  rw [diskLoop_eq_foldl disk u paths [] hok]
  congr 1
  have hnd : ((diskSpecFields u paths).map Prod.fst).Nodup := by
    rw [map_fst_diskSpecFields]
    exact diskFieldNames_nodup paths hnodup
  exact foldl_dictInsert_nodup _ hnd

/-- C5 witness: the theorem evaluated at the two-path configuration
`/`, `/home` with an always-succeeding provider. -/
theorem C5_disk_fields_shape_witness :
    get_disk_usage ["/", "/home"] c5wDisk = Except.ok (diskSpecFields c5wUsage ["/", "/home"])
    ∧ (diskSpecFields c5wUsage ["/", "/home"]).length
        = 4 * (["/", "/home"] : List String).length :=
  C5_disk_fields_shape ["/", "/home"] c5wDisk c5wUsage (by decide) (fun p _ => rfl)

/-- C6 counterexample: chip `a` with a probe labeled `b` and chip `a_b`
with an unlabeled probe synthesize the same field name `a_b_0_current`, so
the first probe's field is overwritten: the output has one field (with the
second probe's reading), not one field per probe as the claim requires. -/
theorem C6_probe_name_collision_cex :
    get_temperature c6Sensors = [("a_b_0_current", 7)]
    ∧ (get_temperature c6Sensors).length ≠ 2 := by
  constructor
  · rfl
  · decide

/-- C6 amended: provided the synthesized probe names are pairwise distinct
(true for real sensor layouts, violable by crafted chip names), each probe
i of chip s yields exactly one field `(s)(_label)_(i)_current` — label
spaces replaced by underscores, the label part omitted when the label is
empty — carrying the probe's current reading; every emitted value is some
probe's current reading (high/critical are never emitted); and the spec's
coretemp example shapes exactly as stated. -/
theorem C6_temperature_fields :
    (∀ sensors : List (String × List TempProbe),
        (tempFieldNames sensors).Nodup →
        get_temperature sensors = tempSpecFields sensors)
    ∧ (∀ (sensors : List (String × List TempProbe)) (kv : String × ℚ),
        kv ∈ get_temperature sensors →
        ∃ sp ∈ sensors, ∃ pr ∈ sp.2, kv.2 = pr.current)
    ∧ get_temperature coretempSensors
        = [("coretemp_Core_0_0_current", 45), ("coretemp_1_current", 47)] := by
  refine ⟨?_, ?_, rfl⟩
  · intro sensors h
    rw [get_temperature_eq_foldl]
    exact foldl_dictInsert_nodup _ h
  · intro sensors kv hkv
    rw [get_temperature_eq_foldl] at hkv
    rcases mem_foldl_dictInsert _ _ _ hkv with h | h
    · exact absurd h (by simp)
    · simp only [tempSpecFields, List.mem_flatMap] at h
      obtain ⟨sp, hsp, hin⟩ := h
      obtain ⟨j, pr, hpr, rfl⟩ := mem_probeFieldsFrom hin
      exact ⟨sp, hsp, pr, hpr, rfl⟩

/-- C6 witness: the amended theorem's general part evaluated at a concrete
two-chip record with distinct names. -/
theorem C6_temperature_fields_witness :
    (tempFieldNames c6wSensors).Nodup
    ∧ get_temperature c6wSensors = tempSpecFields c6wSensors :=
  ⟨by decide, C6_temperature_fields.1 c6wSensors (by decide)⟩

/-- C7 counterexample: with `APP_HOSTNAME` set to the empty string and
`HOST` set to `hostA`, the code resolves the OS-reported hostname, not the
set value of `APP_HOSTNAME` (and not `HOST` either), contrary to the
claimed strict set-membership priority. -/
theorem C7_empty_app_hostname_cex :
    c7Env "APP_HOSTNAME" = some ""
    ∧ c7Env "HOST" = some "hostA"
    ∧ resolveHostname c7Env "os-name" = "os-name"
    ∧ resolveHostname c7Env "os-name" ≠ ""
    ∧ resolveHostname c7Env "os-name" ≠ "hostA" := by
  refine ⟨rfl, rfl, rfl, by decide, by decide⟩

/-- C7 amended: the first variable among `APP_HOSTNAME`, `HOST`,
`HOSTNAME` that is present supplies the candidate value; a non-empty
candidate becomes the hostname tag, while an empty candidate (or no
variable present) falls through to the OS-reported hostname — later
variables are not consulted once an earlier one is present, even when its
value is empty. -/
theorem C7_hostname_resolution (env : String → Option String) (os_hn : String) :
    (∀ v, env "APP_HOSTNAME" = some v →
        resolveHostname env os_hn = (if v == "" then os_hn else v))
    ∧ (env "APP_HOSTNAME" = none → ∀ v, env "HOST" = some v →
        resolveHostname env os_hn = (if v == "" then os_hn else v))
    ∧ (env "APP_HOSTNAME" = none → env "HOST" = none → ∀ v, env "HOSTNAME" = some v →
        resolveHostname env os_hn = (if v == "" then os_hn else v))
    ∧ (env "APP_HOSTNAME" = none → env "HOST" = none → env "HOSTNAME" = none →
        resolveHostname env os_hn = os_hn) := by
  refine ⟨?_, ?_, ?_, ?_⟩
  · intro v hv
    simp [resolveHostname, app_hostname, getenvD, hv]
  · intro h1 v hv
    simp [resolveHostname, app_hostname, getenvD, h1, hv]
  · intro h1 h2 v hv
    simp [resolveHostname, app_hostname, getenvD, h1, h2, hv]
  · intro h1 h2 h3
    simp [resolveHostname, app_hostname, getenvD, h1, h2, h3]

/-- C7 witness: the amended theorem's second clause evaluated at an
environment where only `HOST` is set. -/
theorem C7_hostname_resolution_witness :
    c7wEnv "APP_HOSTNAME" = none
    ∧ resolveHostname c7wEnv "os-name"
        = (if ("hostB" : String) == "" then "os-name" else "hostB") :=
  ⟨rfl, (C7_hostname_resolution c7wEnv "os-name").2.1 rfl "hostB" rfl⟩

/-- C8: with the skip-sink (`--no-db`) flag set, `main` passes
`connect = False`: `DBClient.__init__` opens no connection (no network
event, no client object), and each cycle's `post_metrics` performs no
network write while still building the well-formed Point with measurement
`sysmon`, the hostname tag, and the shaped field set. -/
theorem C8_no_db_no_network (db_vars : InfluxDBVars) (dbname : Option String)
    (metrics : MetricSample) (hn : String) :
    (DBClient.init db_vars dbname (mainConnect true)).net = []
    ∧ (DBClient.init db_vars dbname (mainConnect true)).state.client = none
    ∧ (post_metrics (DBClient.init db_vars dbname (mainConnect true)).state metrics hn).net = []
    ∧ (post_metrics (DBClient.init db_vars dbname (mainConnect true)).state metrics hn).point
        = { measurement := "sysmon", hostname := hn, fields := postFields metrics } :=
  ⟨rfl, rfl, rfl, rfl⟩

/-- C9: the rendered sink configuration masks the password: two
configurations that differ only in their (set, non-empty) passwords render
identically; a set password renders exactly as the configuration whose
password is the literal fixed mask; and an unset password renders as the
unmasked `None`. -/
theorem C9_password_masking :
    (∀ v1 v2 : InfluxDBVars, v1.hostname = v2.hostname → v1.port = v2.port →
        v1.username = v2.username → v1.dbname = v2.dbname → v1.ssl = v2.ssl →
        pyTruthyStr v1.password = true → pyTruthyStr v2.password = true →
        InfluxDBVars.toStr v1 = InfluxDBVars.toStr v2)
    ∧ (∀ (v : InfluxDBVars) (p : String), v.password = some p → p ≠ "" →
        InfluxDBVars.toStr v = InfluxDBVars.toStr { v with password := some "***" })
    ∧ (∀ v : InfluxDBVars, v.password = none →
        InfluxDBVars.toStr v
          = "<InfluxDBVars hostname=" ++ pyOptStr v.hostname ++ " port="
            ++ pyOptStr v.port ++ " username=" ++ pyOptStr v.username
            ++ " password=" ++ "None" ++ " dbname=" ++ pyOptStr v.dbname
            ++ " ssl=" ++ pyBoolStr v.ssl ++ ">") := by
  refine ⟨?_, ?_, ?_⟩
  · intro v1 v2 hh hp hu hd hs ht1 ht2
    match hv1 : v1.password, hv2 : v2.password with
    | none, _ => rw [hv1] at ht1; simp [pyTruthyStr] at ht1
    | some s1, none => rw [hv2] at ht2; simp [pyTruthyStr] at ht2
    | some s1, some s2 =>
      rw [hv1] at ht1
      rw [hv2] at ht2
      simp only [pyTruthyStr, Bool.not_eq_true'] at ht1 ht2
      simp [InfluxDBVars.toStr, hv1, hv2, ht1, ht2, hh, hp, hu, hd, hs]
  · intro v p hv hne
    have hb : (p == "") = false := by
      simpa using hne
    simp [InfluxDBVars.toStr, hv, hb]
  · intro v hv
    simp [InfluxDBVars.toStr, hv]

/-- C9 witness: the theorem evaluated at two configurations with distinct
passwords `secretA` and `secretB2`, and at one with no password. -/
theorem C9_password_masking_witness :
    InfluxDBVars.toStr c9VarsA = InfluxDBVars.toStr c9VarsB
    ∧ InfluxDBVars.toStr c9VarsA
        = InfluxDBVars.toStr { c9VarsA with password := some "***" }
    ∧ InfluxDBVars.toStr c9VarsNone
        = "<InfluxDBVars hostname=" ++ pyOptStr c9VarsNone.hostname ++ " port="
          ++ pyOptStr c9VarsNone.port ++ " username=" ++ pyOptStr c9VarsNone.username
          ++ " password=" ++ "None" ++ " dbname=" ++ pyOptStr c9VarsNone.dbname
          ++ " ssl=" ++ pyBoolStr c9VarsNone.ssl ++ ">" :=
  ⟨C9_password_masking.1 c9VarsA c9VarsB rfl rfl rfl rfl rfl rfl rfl,
   C9_password_masking.2.1 c9VarsA "secretA" rfl (by decide),
   C9_password_masking.2.2 c9VarsNone rfl⟩

/-- C10 counterexample: chip `coretemp` with a probe labeled `Core 0` and
chip `coretemp_Core_0` with an unlabeled probe both synthesize the field
name `coretemp_Core_0_0_current`, so the full field-name list is not
pairwise unique, contrary to the claim's universal uniqueness. -/
theorem C10_field_name_collision_cex :
    ¬ (allFieldNames ["/"] c10Sensors).Nodup := by decide

/-- C10 amended: provided the configured disk paths are pairwise distinct
and the temperature probes synthesize pairwise-distinct names, all field
names — the eight core names, the temperature names, and the disk names —
are pairwise unique (the three families can never collide with each
other), and merging the temperature and disk fields into the Point's field
set only appends, overwriting no existing field. -/
theorem C10_field_names_unique (paths : List String)
    (sensors : List (String × List TempProbe))
    (hp : paths.Nodup) (ht : (tempFieldNames sensors).Nodup) :
    (allFieldNames paths sensors).Nodup
    ∧ ∀ (mem : MemoryRecord) (cpu : CpuRecord) (u : String → DiskUsage),
        postFields { memory := mem, cpu := cpu, temperature := tempSpecFields sensors,
                     disk_usage := diskSpecFields u paths }
          = coreFields { memory := mem, cpu := cpu, temperature := tempSpecFields sensors,
                         disk_usage := diskSpecFields u paths }
            ++ (tempSpecFields sensors).map (fun kv => (kv.1, some kv.2))
            ++ (diskSpecFields u paths).map (fun kv => (kv.1, some kv.2)) :=
  ⟨allFieldNames_nodup paths sensors hp ht,
   fun mem cpu u => postFields_append paths sensors hp ht mem cpu u⟩

/-- C10 witness: the amended theorem evaluated at the two-path
configuration with the coretemp example sensors and a concrete sample. -/
theorem C10_field_names_unique_witness :
    (allFieldNames ["/", "/data"] coretempSensors).Nodup
    ∧ postFields { memory := ⟨1, 2⟩, cpu := ⟨4, 5, 6, 7, 8, 9⟩,
                   temperature := tempSpecFields coretempSensors,
                   disk_usage := diskSpecFields c5wUsage ["/", "/data"] }
        = coreFields { memory := ⟨1, 2⟩, cpu := ⟨4, 5, 6, 7, 8, 9⟩,
                       temperature := tempSpecFields coretempSensors,
                       disk_usage := diskSpecFields c5wUsage ["/", "/data"] }
          ++ (tempSpecFields coretempSensors).map (fun kv => (kv.1, some kv.2))
          ++ (diskSpecFields c5wUsage ["/", "/data"]).map (fun kv => (kv.1, some kv.2)) :=
  ⟨(C10_field_names_unique ["/", "/data"] coretempSensors (by decide) (by decide)).1,
   (C10_field_names_unique ["/", "/data"] coretempSensors (by decide) (by decide)).2
     ⟨1, 2⟩ ⟨4, 5, 6, 7, 8, 9⟩ c5wUsage⟩

end PySysmon
